import Mathlib

/-!
Shallow embedding of the crawl-and-progress core of the
bandcamp_recommendations service (Rust sources under src/), used to check
the natural-language specification against the code.

The SQL store is modelled as a record of lists mirroring the tables named
in the spec (collector, item, collects, collected_by, the two work queues,
collection_target).  Each Rust function that the claims touch is translated
into a pure Lean function over this state; fallible paths become Option or
Except, and the Rust panics (HashMap indexing, Option::unwrap) become
distinguished error outcomes.  Row uniqueness of the key columns
(fan_id / item_id / the edge pairs) comes from the schema script
src/init.sql, which is not part of src/; following the data-model section
of the spec, edge inserts are modelled as append-if-absent, and keyed
upserts update the matching rows in place.
-/

namespace BC

/-- ItemType from src/types.rs: closed enumeration of five tags. -/
inductive ItemType
  | album
  | track
  | package
  | lepledge
  | subscription
deriving DecidableEq, Repr

/-- Item from src/types.rs: the decoded remote payload for one item. -/
structure Item where
  item_id : Int
  item_type : ItemType
  item_title : String
  item_url : String
  album_id : Option Int
  album_title : Option String
  band_id : Int
  band_name : String
  token : Option String
  also_collected_count : Int
deriving DecidableEq, Repr

/-- Collector from src/types.rs: the decoded remote payload for one fan. -/
structure Collector where
  fan_id : Int
  username : String
  name : String
  token : Option String
deriving DecidableEq, Repr

/-- Row of the collector table (fan_id, username, name, token, last_updated). -/
structure CollectorRow where
  fan_id : Int
  username : String
  name : String
  token : Option String
  last_updated : Int
deriving DecidableEq, Repr

/-- Row of the item table (after the album-collapse applied on insert). -/
structure ItemRow where
  item_id : Int
  item_type : ItemType
  item_title : String
  item_url : String
  band_id : Int
  band_name : String
  token : Option String
  also_collected_count : Int
  last_updated : Int
deriving DecidableEq, Repr

/-- Row of the collection_target table (src/types.rs Target). -/
structure TargetRow where
  fan_id : Int
  stage : Int
  count_left : Int
  count_total : Int
  eta : Int
deriving DecidableEq, Repr

/-- The SQL store: one field per table of the schema.  The two edge tables
hold (fan_id, item_id) pairs and (item_id, fan_id) pairs respectively. -/
structure Store where
  collectors : List CollectorRow
  items : List ItemRow
  collects : List (Int × Int)
  collected_by : List (Int × Int)
  collectionQueue : List Int
  itemQueue : List Int
  targets : List TargetRow
deriving DecidableEq, Repr

namespace Collectors

/-- get_fan_id_for_username from src/collectors.rs: SELECT fan_id FROM
collector WHERE username = ? (first row, if any). -/
def get_fan_id_for_username (s : Store) (name : String) : Option Int :=
  (s.collectors.find? (fun r => r.username == name)).map (fun r => r.fan_id)

/-- add_collector from src/collectors.rs (INSERT_COLLECTOR): insert the
collector with last_updated 0, or on a conflict on the fan_id key update
only the token, and only when the stored token is null. -/
def add_collector (s : Store) (c : Collector) : Store :=
  if s.collectors.any (fun r => r.fan_id == c.fan_id) then
    { s with collectors := s.collectors.map (fun r =>
        if r.fan_id == c.fan_id then
          { r with token := match r.token with
              | none => c.token
              | some t => some t }
        else r) }
  else
    { s with collectors :=
        s.collectors ++ [⟨c.fan_id, c.username, c.name, c.token, 0⟩] }

/-- Item row an INSERT_ITEM execution writes for a decoded item, after the
album collapse done at the call site in add_item_for_collector: album_id
replaces item_id and album_title replaces item_title when present. -/
def collapsedRow (item : Item) : ItemRow :=
  { item_id := item.album_id.getD item.item_id
    item_type := item.item_type
    item_title := item.album_title.getD item.item_title
    item_url := item.item_url
    band_id := item.band_id
    band_name := item.band_name
    token := item.token
    also_collected_count := item.also_collected_count
    last_updated := 0 }

/-- INSERT_ITEM from src/collectors.rs: insert the row with last_updated 0,
or on a conflict on the item_id key update only the token, and only when
the stored token is null. -/
def add_item_row (s : Store) (row : ItemRow) : Store :=
  if s.items.any (fun r => r.item_id == row.item_id) then
    { s with items := s.items.map (fun r =>
        if r.item_id == row.item_id then
          { r with token := match r.token with
              | none => row.token
              | some t => some t }
        else r) }
  else
    { s with items := s.items ++ [row] }

/-- add_item_for_collector from src/collectors.rs: upsert the (collapsed)
item row, then INSERT OR IGNORE the collects edge with RETURNING 1.  The
returned Bool is the .next().is_none() of the RETURNING cursor: it is true
iff the edge already existed (the insert was ignored), false iff the edge
was newly inserted. -/
def add_item_for_collector (s : Store) (fan_id : Int) (item : Item) :
    Store × Bool :=
  let item_id := item.album_id.getD item.item_id
  let s1 := add_item_row s (collapsedRow item)
  if (fan_id, item_id) ∈ s1.collects then
    (s1, true)
  else
    ({ s1 with collects := s1.collects ++ [(fan_id, item_id)] }, false)

/-- Body of the spawn_blocking closure of get_next_page in
src/collectors.rs, applied to the decoded items of one page: for each
entry, done is overwritten with the report of add_item_for_collector and
last_token is overwritten with entry.token.unwrap().  The unwrap of a null
token is the Rust panic, modelled as none. -/
def processCollectionItems (s : Store) (fan_id : Int) (entries : List Item)
    (done : Bool) (last_token : String) : Option (Store × Bool × String) :=
  match entries with
  | [] => some (s, done, last_token)
  | e :: rest =>
    let p := add_item_for_collector s fan_id e
    match e.token with
    | none => none
    | some t => processCollectionItems p.1 fan_id rest p.2 t

/-- Tail of get_next_page in src/collectors.rs: after the page loop, return
none (stop paginating) when done or no more pages are available, otherwise
the running last_token.  The outer Option is the unwrap panic of
processCollectionItems. -/
def get_next_page (s : Store) (fan_id : Int) (entries : List Item)
    (more_available : Bool) (last_token : String) :
    Option (Store × Option String) :=
  (processCollectionItems s fan_id entries false last_token).map
    (fun r => (r.1, if r.2.1 || !more_available then none else some r.2.2))

/-- Sequence of duplicate reports the page loop of get_next_page observes:
element k is the Bool returned by the k-th add_item_for_collector call
(true meaning the edge was already present). -/
def collectReports (s : Store) (fan_id : Int) : List Item → List Bool
  | [] => []
  | e :: rest =>
    let p := add_item_for_collector s fan_id e
    p.2 :: collectReports p.1 fan_id rest

/-- mark_collector_done from src/collectors.rs: set last_updated to the
current epoch time for the named collector. -/
def mark_collector_done (s : Store) (now : Int) (name : String) : Store :=
  { s with collectors := s.collectors.map (fun r =>
      if r.username == name then { r with last_updated := now } else r) }

/-- remove_from_queue from src/collectors.rs: delete the collection-queue
row of the fan_id the username resolves to (no-op when the scalar subquery
yields null). -/
def remove_from_queue (s : Store) (name : String) : Store :=
  match get_fan_id_for_username s name with
  | none => s
  | some f =>
    { s with collectionQueue := s.collectionQueue.filter (fun q => !(q == f)) }

/-- remove_collects from src/collectors.rs: delete every collects edge of
the fan_id the username resolves to. -/
def remove_collects (s : Store) (name : String) : Store :=
  match get_fan_id_for_username s name with
  | none => s
  | some f =>
    { s with collects := s.collects.filter (fun e => !(e.1 == f)) }

/-- SQLite evaluation of the SQL expression unixepoch(last_updated, +30
days) used by SELECT_PRESENT_AND_RECENT_COLLECTOR and its item twin.  Per
the SQLite date-function documentation, a numeric time-value is
interpreted as a Julian day number (the unixepoch modifier, which the
source omits, would be needed for epoch seconds), and Julian day numbers
are valid only in the range 0 to 5373484.5 (the year range 4714 BC to
9999 AD); an out-of-range time-value makes the function yield NULL,
modelled as none.  For an in-range integer Julian day d the result is the
epoch-second value d * 86400 - 210866760000 shifted by the 30-day
modifier. -/
def unixepoch_plus_30_days (lu : Int) : Option Int :=
  if 0 ≤ lu ∧ lu ≤ 5373484 then
    some ((lu + 30) * 86400 - 210866760000)
  else
    none

/-- collector_present_and_recent from src/collectors.rs: evaluate
unixepoch(now) - unixepoch(last_updated, +30 days) for the named collector
and test the value against 0; a missing row, or a NULL value (whose
row.get fails and is discarded by .ok()), yields false via
unwrap_or(false). -/
def collector_present_and_recent (s : Store) (now : Int) (name : String) :
    Bool :=
  match s.collectors.find? (fun r => r.username == name) with
  | none => false
  | some r =>
    match unixepoch_plus_30_days r.last_updated with
    | none => false
    | some x => now - x < 0

/-- Freshness predicate as the spec words it (an entity is fresh iff a row
exists and now - last_updated < 30 days, last_updated in epoch seconds);
stated for comparison with collector_present_and_recent. -/
def collectorFresh_spec (s : Store) (now : Int) (name : String) : Bool :=
  match s.collectors.find? (fun r => r.username == name) with
  | none => false
  | some r => now - r.last_updated < 30 * 86400

/-- Outcome classification of one fetch_collection call, as matched by the
worker loops (section 7 of the spec). -/
inductive FetchOutcome
  | success
  | notFound
  | rateLimit
  | transient
deriving DecidableEq, Repr

/-- Post-processing of one collection_worker iteration in
src/collectors.rs: the match on the fetch_collection result.  RateLimit
runs remove_collects only; NotFound and success mark the collector done
and dequeue it; other errors only log. -/
def collection_worker_step (s : Store) (now : Int) (name : String)
    (o : FetchOutcome) : Store :=
  match o with
  | .rateLimit => remove_collects s name
  | .notFound => remove_from_queue (mark_collector_done s now name) name
  | .success => remove_from_queue (mark_collector_done s now name) name
  | .transient => s

end Collectors

namespace Items

/-- add_collector_for_item from src/items.rs: upsert the collector row,
then INSERT OR IGNORE the collected_by edge with RETURNING 1; the returned
Bool is true iff the edge already existed. -/
def add_collector_for_item (s : Store) (item_id : Int) (c : Collector) :
    Store × Bool :=
  let s1 := Collectors.add_collector s c
  if (item_id, c.fan_id) ∈ s1.collected_by then
    (s1, true)
  else
    ({ s1 with collected_by := s1.collected_by ++ [(item_id, c.fan_id)] }, false)

/-- Body of the spawn_blocking closure of get_next_page in src/items.rs,
applied to the decoded collectors of one page: done accumulates with OR
over the duplicate reports, and token is overwritten only by entries whose
token is non-null. -/
def processThumbs (s : Store) (item_id : Int) (cs : List Collector)
    (done : Bool) (token : String) : Store × Bool × String :=
  match cs with
  | [] => (s, done, token)
  | c :: rest =>
    let p := add_collector_for_item s item_id c
    let token' := match c.token with
      | some t => t
      | none => token
    processThumbs p.1 item_id rest (p.2 || done) token'

/-- Tail of get_next_page in src/items.rs: continue with the running token
only when not done and more results are available. -/
def get_next_page (s : Store) (item_id : Int) (cs : List Collector)
    (more_available : Bool) (token : String) : Store × Option String :=
  let r := processThumbs s item_id cs false token
  (r.1, if !r.2.1 && more_available then some r.2.2 else none)

/-- Sequence of duplicate reports the page loop of get_next_page in
src/items.rs observes. -/
def thumbReports (s : Store) (item_id : Int) : List Collector → List Bool
  | [] => []
  | c :: rest =>
    let p := add_collector_for_item s item_id c
    p.2 :: thumbReports p.1 item_id rest

/-- item_present_and_recent from src/items.rs: the item twin of
collector_present_and_recent, with the same SQLite date-function
semantics. -/
def item_present_and_recent (s : Store) (now : Int) (item_id : Int) : Bool :=
  match s.items.find? (fun r => r.item_id == item_id) with
  | none => false
  | some r =>
    match Collectors.unixepoch_plus_30_days r.last_updated with
    | none => false
    | some x => now - x < 0

/-- Freshness predicate for items as the spec words it, for comparison
with item_present_and_recent. -/
def itemFresh_spec (s : Store) (now : Int) (item_id : Int) : Bool :=
  match s.items.find? (fun r => r.item_id == item_id) with
  | none => false
  | some r => now - r.last_updated < 30 * 86400

/-- mark_item_done from src/items.rs. -/
def mark_item_done (s : Store) (now : Int) (item_id : Int) : Store :=
  { s with items := s.items.map (fun r =>
      if r.item_id == item_id then { r with last_updated := now } else r) }

/-- remove_from_queue from src/items.rs. -/
def remove_from_queue (s : Store) (item_id : Int) : Store :=
  { s with itemQueue := s.itemQueue.filter (fun q => !(q == item_id)) }

/-- remove_collected_by from src/items.rs: delete every collected_by edge
of the item. -/
def remove_collected_by (s : Store) (item_id : Int) : Store :=
  { s with collected_by := s.collected_by.filter (fun e => !(e.1 == item_id)) }

/-- Post-processing of one item_worker iteration in src/items.rs: the match
on the fetch_track_collectors result. -/
def item_worker_step (s : Store) (now : Int) (item_id : Int)
    (o : Collectors.FetchOutcome) : Store :=
  match o with
  | .rateLimit => remove_collected_by s item_id
  | .notFound => remove_from_queue (mark_item_done s now item_id) item_id
  | .success => remove_from_queue (mark_item_done s now item_id) item_id
  | .transient => s

end Items

namespace ProgressManager

/-- STAGE_1_PER_ITEM from src/progress_manager.rs. -/
def STAGE_1_PER_ITEM : Int := 2

/-- STAGE_2_PER_ITEM from src/progress_manager.rs. -/
def STAGE_2_PER_ITEM : Int := 3

/-- get_stage_1_requirements from src/progress_manager.rs: the item_id of
every collects row of the fan whose item row passes the staleness test.
The SQL staleness test on last_updated is abstracted as the predicate
stale; a collects row whose item row is missing makes the scalar subquery
null, which the WHERE clause treats as false. -/
def get_stage_1_requirements (s : Store) (stale : Int → Bool) (fan : Int) :
    List Int :=
  (s.collects.filter (fun e =>
      e.1 == fan &&
      (match s.items.find? (fun r => r.item_id == e.2) with
       | some r => stale r.last_updated
       | none => false))).map (fun e => e.2)

/-- get_stage_2_requirements from src/progress_manager.rs: group the
collected_by rows of the items the fan collects, restricted to rows whose
collector row passes the staleness test, by fan_id, and keep the fans with
more than one such row. -/
def get_stage_2_requirements (s : Store) (staleC : Int → Bool) (fan : Int) :
    List Int :=
  let ts := (s.collects.filter (fun e => e.1 == fan)).map (fun e => e.2)
  let rows := s.collected_by.filter (fun e =>
    ts.contains e.1 &&
    (match s.collectors.find? (fun r => r.fan_id == e.2) with
     | some r => staleC r.last_updated
     | none => false))
  ((rows.map (fun e => e.2)).dedup).filter
    (fun f => 1 < (rows.filter (fun e => e.2 == f)).length)

/-- insert_target from src/progress_manager.rs (INSERT_TARGET): insert the
target row, or on a conflict on fan_id overwrite stage, count_left and
eta, and set count_total to the larger of the stored and the supplied
value. -/
def insert_target (s : Store) (fan stage count_left count_total eta : Int) :
    Store :=
  if s.targets.any (fun t => t.fan_id == fan) then
    { s with targets := s.targets.map (fun t =>
        if t.fan_id == fan then
          ⟨t.fan_id, stage, count_left, max count_total t.count_total, eta⟩
        else t) }
  else
    { s with targets := s.targets ++ [⟨fan, stage, count_left, count_total, eta⟩] }

/-- insert_to_collected_by_queue from src/progress_manager.rs
(INSERT OR IGNORE into the item queue). -/
def insert_to_collected_by_queue (s : Store) (item_id : Int) : Store :=
  if s.itemQueue.contains item_id then s
  else { s with itemQueue := s.itemQueue ++ [item_id] }

/-- insert_to_collection_queue from src/progress_manager.rs
(INSERT OR IGNORE into the collection queue). -/
def insert_to_collection_queue (s : Store) (fan_id : Int) : Store :=
  if s.collectionQueue.contains fan_id then s
  else { s with collectionQueue := s.collectionQueue ++ [fan_id] }

/-- get_target from src/progress_manager.rs: the stored row, or the
synthesized stage-3 sentinel when no row exists. -/
def get_target (s : Store) (fan : Int) : TargetRow :=
  (s.targets.find? (fun t => t.fan_id == fan)).getD ⟨fan, 3, 0, 0, 0⟩

/-- delete_target from src/progress_manager.rs. -/
def delete_target (s : Store) (fan : Int) : Store :=
  { s with targets := s.targets.filter (fun t => !(t.fan_id == fan)) }

/-- handle_stage_2 from src/progress_manager.rs: upsert the stage-2 target
when the requirement list is non-empty, enqueueing the requirements into
the collection queue only when old_count is none; delete the target when
the list is empty. -/
def handle_stage_2 (s : Store) (staleC : Int → Bool) (fan : Int)
    (old_count : Option Int) : Store :=
  let requirements := get_stage_2_requirements s staleC fan
  if requirements.isEmpty then
    delete_target s fan
  else
    let s1 := insert_target s fan 2 requirements.length
      (old_count.getD (requirements.length : Int))
      ((requirements.length : Int) * STAGE_2_PER_ITEM)
    match old_count with
    | none => requirements.foldl insert_to_collection_queue s1
    | some _ => s1

/-- handle_stage_1 from src/progress_manager.rs: upsert the stage-1 target
when the requirement list is non-empty, enqueueing the requirements into
the item queue only when old_count is none; fall through to stage 2 when
the list is empty. -/
def handle_stage_1 (s : Store) (stale staleC : Int → Bool) (fan : Int)
    (old_count : Option Int) : Store :=
  let requirements := get_stage_1_requirements s stale fan
  if requirements.isEmpty then
    handle_stage_2 s staleC fan none
  else
    let s1 := insert_target s fan 1 requirements.length
      (old_count.getD (requirements.length : Int))
      ((requirements.length : Int) * STAGE_1_PER_ITEM)
    match old_count with
    | none => requirements.foldl insert_to_collected_by_queue s1
    | some _ => s1

/-- add_target from src/progress_manager.rs: run handle_stage_1 with no
old count, then read the target back (stage-3 sentinel when deleted). -/
def add_target (s : Store) (stale staleC : Int → Bool) (fan : Int) :
    Store × TargetRow :=
  let s1 := handle_stage_1 s stale staleC fan none
  (s1, get_target s1 fan)

/-- update_target from src/progress_manager.rs: one background tick for one
target, dispatching on the stored stage and passing the stored count_total
as the old count. -/
def update_target (s : Store) (stale staleC : Int → Bool) (fan : Int) :
    Store :=
  let t := get_target s fan
  if t.stage == 1 then handle_stage_1 s stale staleC fan (some t.count_total)
  else if t.stage == 2 then handle_stage_2 s staleC fan (some t.count_total)
  else s

end ProgressManager

namespace Analyze

/-- Error outcomes of get_user_recommendations: the NotFound error for an
unknown username, the DbResult error of get_item for a missing item row,
and the Rust panic of indexing the relevant-users HashMap with a key it
does not contain. -/
inductive RecErr
  | notFound
  | dbResult
  | mapIndexPanicked
deriving DecidableEq, Repr

/-- Distinct item set of one fan, as the outer GROUP BY of
SELECT_RELEVANT_USERS materializes it (the group_concat list collected
into a Rust HashSet). -/
def userItems (s : Store) (f : Int) : List Int :=
  ((s.collects.filter (fun e => e.1 == f)).map (fun e => e.2)).dedup

/-- Item list of the target fan, as the innermost subquery of
SELECT_RELEVANT_USERS produces it (used only for IN membership). -/
def targetItems (s : Store) (fan : Int) : List Int :=
  (s.collects.filter (fun e => e.1 == fan)).map (fun e => e.2)

/-- Number of collects rows of fan f whose item is among ts: the
HAVING count(fan_id) > 1 aggregate of the inner subquery of
SELECT_RELEVANT_USERS counts these rows. -/
def sharedRowCount (s : Store) (ts : List Int) (f : Int) : Nat :=
  (s.collects.filter (fun e => e.1 == f && ts.contains e.2)).length

/-- Fans the inner subquery of SELECT_RELEVANT_USERS keeps: fans with more
than one collects row whose item the target also collects. -/
def relevantFans (s : Store) (fan : Int) : List Int :=
  ((s.collects.map (fun e => e.1)).dedup).filter
    (fun f => 1 < sharedRowCount s (targetItems s fan) f)

/-- get_relevant_users from src/analyze.rs: for every relevant fan, the
full set of items that fan collects. -/
def get_relevant_users (s : Store) (fan : Int) : List (Int × List Int) :=
  (relevantFans s fan).map (fun f => (f, userItems s f))

/-- Intersection size user.intersection(forbidden).count() of the scoring
loop, with user already deduplicated (a Rust HashSet). -/
def overlapCount (user forbidden : List Int) : Nat :=
  (user.filter (fun i => forbidden.contains i)).length

/-- One count.entry(item).or_default() += mult step of the scoring loop. -/
def bumpScore (acc : List (Int × ℚ)) (i : Int) (w : ℚ) : List (Int × ℚ) :=
  if acc.any (fun p => p.1 == i) then
    acc.map (fun p => if p.1 == i then (p.1, p.2 + w) else p)
  else
    acc ++ [(i, w)]

/-- One iteration of the scoring loop of get_user_recommendations: compute
the weight mult of the overlap, and when it exceeds 1.0 add it to the score
of every item of the user outside the forbidden set.  The f64 powf of the
source is abstracted as the rational-valued function mult of the overlap
size. -/
def addUserScores (forbidden : List Int) (mult : Nat → ℚ)
    (acc : List (Int × ℚ)) (user : List Int) : List (Int × ℚ) :=
  let w := mult (overlapCount user forbidden)
  if 1 < w then
    (user.filter (fun i => !forbidden.contains i)).foldl
      (fun a i => bumpScore a i w) acc
  else acc

/-- The count map of get_user_recommendations after the scoring loop over
every relevant user (the target included, whose difference set is empty). -/
def scoreEntries (m : List (Int × List Int)) (forbidden : List Int)
    (mult : Nat → ℚ) : List (Int × ℚ) :=
  m.foldl (fun acc p => addUserScores forbidden mult acc p.2) []

/-- Descending-score comparison used by the sort_unstable_by call of
get_user_recommendations. -/
def byScoreDesc (a b : Int × ℚ) : Prop := b.2 ≤ a.2

instance : DecidableRel byScoreDesc := fun a b =>
  inferInstanceAs (Decidable (b.2 ≤ a.2))

instance : IsTotal (Int × ℚ) byScoreDesc := ⟨fun a b => le_total b.2 a.2⟩

instance : IsTrans (Int × ℚ) byScoreDesc :=
  ⟨fun _ _ _ h1 h2 => le_trans h2 h1⟩

/-- Final loop of get_user_recommendations: load the item row of every
selected item_id (get_item propagates a DbResult error when the row is
missing) and attach the score. -/
def loadScored (s : Store) : List (Int × ℚ) → Except RecErr (List (ItemRow × ℚ))
  | [] => .ok []
  | (i, sc) :: rest =>
    match s.items.find? (fun r => r.item_id == i) with
    | none => .error .dbResult
    | some r =>
      match loadScored s rest with
      | .error e => .error e
      | .ok out => .ok ((r, sc) :: out)

/-- get_user_recommendations from src/analyze.rs: resolve the username,
build the relevant-users map, index it with the target fan_id (a panic
when absent), run the scoring loop, sort by score descending, take the
top 50 and load the item rows. -/
def get_user_recommendations (s : Store) (username : String)
    (mult : Nat → ℚ) : Except RecErr (List (ItemRow × ℚ)) :=
  match Collectors.get_fan_id_for_username s username with
  | none => .error .notFound
  | some fan =>
    let users := get_relevant_users s fan
    match users.find? (fun p => p.1 == fan) with
    | none => .error .mapIndexPanicked
    | some pr =>
      let elements := scoreEntries users pr.2 mult
      let sorted := elements.insertionSort byScoreDesc
      loadScored s (sorted.take 50)

end Analyze

/-- Iterated add_item_for_collector: the store after n inserts of the same
item for the same fan, together with the report of every call in order. -/
def insertCollectsN (s : Store) (fan : Int) (item : Item) :
    Nat → Store × List Bool
  | 0 => (s, [])
  | n + 1 =>
    let p := Collectors.add_item_for_collector s fan item
    let q := insertCollectsN p.1 fan item n
    (q.1, p.2 :: q.2)

/-- Iterated add_collector_for_item, with the report of every call. -/
def insertCollectedByN (s : Store) (item_id : Int) (c : Collector) :
    Nat → Store × List Bool
  | 0 => (s, [])
  | n + 1 =>
    let p := Items.add_collector_for_item s item_id c
    let q := insertCollectedByN p.1 item_id c n
    (q.1, p.2 :: q.2)

/-! Concrete fixtures used by the counterexamples and witnesses. -/

/-- Decoded item with a given id and pagination token, no album collapse. -/
def mkItem (i : Int) (tk : Option String) : Item :=
  ⟨i, .album, "t", "https://x.bandcamp.com/a", none, none, 7, "b", tk, 0⟩

/-- Stored item row with a given id and last_updated. -/
def mkItemRow (i : Int) (lu : Int) : ItemRow :=
  ⟨i, .album, "t", "https://x.bandcamp.com/a", 7, "b", none, 0, lu⟩

/-- Decoded collector with a given fan_id and token. -/
def mkCollector (f : Int) (tk : Option String) : Collector := ⟨f, "n", "N", tk⟩

/-- Empty store. -/
def emptyStore : Store := ⟨[], [], [], [], [], [], []⟩

/-- Staleness predicate used by the concrete progress-manager fixtures: the
epoch-second reading of the staleness SQL at now = 2000000000. -/
def fixStale : Int → Bool := fun lu => decide (lu + 30 * 86400 < 2000000000)

/-- Store for the C1 counterexample: the edge (1, 20) already exists, so a
page holding item 20 then item 10 reports a duplicate first and a new edge
second. -/
def c1_store : Store := ⟨[], [], [(1, 20)], [], [], [], []⟩

/-- First page entry of the C1 counterexample (duplicate). -/
def c1_page0 : Item := mkItem 20 (some "x")

/-- Second page entry of the C1 counterexample (new edge). -/
def c1_page1 : Item := mkItem 10 (some "y")

/-- Result of processing the one-entry page [c1_page0] from c1_store, used
by the C1 witness. -/
def c1_result : Store × Bool × String :=
  ((Collectors.add_item_for_collector c1_store 1 c1_page0).1, true, "x")

/-- Store for the item-side C1 and C2 fixtures: the collected_by edge
(20, 5) already exists. -/
def c1_istore : Store := ⟨[], [], [], [(20, 5)], [], [], []⟩

/-- Store for the C2 witness: collector bob with partial collects progress
and a queued crawl. -/
def c2_store : Store :=
  ⟨[⟨1, "bob", "Bob", none, 0⟩], [], [(1, 10), (1, 11), (2, 10)], [], [1, 2], [], []⟩

/-- Store for the C3 witness, scenario S4 of the spec: user u collects
{1,2,3}, a collects {1,2,4}, b collects {1,2,3,5}, c collects {4,5}. -/
def c3_store : Store :=
  { collectors := [⟨1, "u", "U", none, 0⟩, ⟨2, "a", "A", none, 0⟩,
      ⟨3, "b", "B", none, 0⟩, ⟨4, "c", "C", none, 0⟩]
    items := [mkItemRow 1 0, mkItemRow 2 0, mkItemRow 3 0, mkItemRow 4 0,
      mkItemRow 5 0]
    collects := [(1, 1), (1, 2), (1, 3), (2, 1), (2, 2), (2, 4), (3, 1),
      (3, 2), (3, 3), (3, 5), (4, 4), (4, 5)]
    collected_by := []
    collectionQueue := []
    itemQueue := []
    targets := [] }

/-- Weight function of the C3 witness: similar_boost 2, so the weight of
overlap n is n squared. -/
def c3_mult : Nat → ℚ := fun n => mkRat (Int.ofNat (n * n)) 1

/-- Expected C3 witness output: item 5 scored by fan b (overlap 3), item 4
scored by fan a (overlap 2). -/
def c3_out : List (ItemRow × ℚ) :=
  [(mkItemRow 5 0, c3_mult 3), (mkItemRow 4 0, c3_mult 2)]

/-- Store for the C4 counterexample: a stage-1 target with count_total 1
while two stale items are required. -/
def c4_store : Store :=
  { collectors := []
    items := [mkItemRow 10 0, mkItemRow 11 0]
    collects := [(1, 10), (1, 11)]
    collected_by := []
    collectionQueue := []
    itemQueue := [10, 11]
    targets := [⟨1, 1, 1, 1, 2⟩] }

/-- Store for the C7 counterexample: a pre-existing target row with
count_total 5 while only one stale item is required. -/
def c7_store : Store :=
  { collectors := []
    items := [mkItemRow 10 0]
    collects := [(1, 10)]
    collected_by := []
    collectionQueue := []
    itemQueue := []
    targets := [⟨1, 2, 7, 5, 9⟩] }

/-- Store for the stage-3 part of the C7 witness: a target row but no
requirements at all. -/
def c7_empty_store : Store := ⟨[], [], [], [], [], [], [⟨1, 1, 3, 3, 6⟩]⟩

/-- Store for the C6 failing input: collector alice and item 10 both
crawled at epoch second 1760227200. -/
def c6_store : Store :=
  ⟨[⟨1, "alice", "Alice", none, 1760227200⟩], [mkItemRow 10 1760227200],
    [], [], [], [], []⟩

/-- Store for the C9 witness: fan 1 is known but collects a single item. -/
def c9_store : Store :=
  ⟨[⟨1, "solo", "Solo", none, 0⟩], [mkItemRow 10 0], [(1, 10)], [], [], [], []⟩

/-! Helper lemmas about the embedded operations. -/

theorem add_item_row_collects (s : Store) (row : ItemRow) :
    (Collectors.add_item_row s row).collects = s.collects := by
  unfold Collectors.add_item_row
  split <;> rfl

theorem add_item_row_collected_by (s : Store) (row : ItemRow) :
    (Collectors.add_item_row s row).collected_by = s.collected_by := by
  unfold Collectors.add_item_row
  split <;> rfl

theorem add_collector_collects (s : Store) (c : Collector) :
    (Collectors.add_collector s c).collects = s.collects := by
  unfold Collectors.add_collector
  split <;> rfl

theorem add_collector_collected_by (s : Store) (c : Collector) :
    (Collectors.add_collector s c).collected_by = s.collected_by := by
  unfold Collectors.add_collector
  split <;> rfl

theorem add_item_for_collector_report (s : Store) (f : Int) (it : Item)
    (h : ∀ e ∈ s.collects, e.1 ≠ f) :
    (Collectors.add_item_for_collector s f it).2 = false := by
  unfold Collectors.add_item_for_collector
  rw [if_neg]
  intro hmem
  rw [add_item_row_collects] at hmem
  exact h _ hmem rfl

theorem add_collector_for_item_report (s : Store) (iid : Int) (c : Collector)
    (h : ∀ e ∈ s.collected_by, e.1 ≠ iid) :
    (Items.add_collector_for_item s iid c).2 = false := by
  unfold Items.add_collector_for_item
  rw [if_neg]
  intro hmem
  rw [add_collector_collected_by] at hmem
  exact h _ hmem rfl

theorem processCollectionItems_done (fan : Int) :
    ∀ (entries : List Item) (s : Store) (done : Bool) (tok : String)
      (r : Store × Bool × String),
      Collectors.processCollectionItems s fan entries done tok = some r →
      r.2.1 = (Collectors.collectReports s fan entries).getLastD done := by
  intro entries
  induction entries with
  | nil =>
    intro s done tok r h
    simp only [Collectors.processCollectionItems, Option.some_inj] at h
    subst h
    rfl
  | cons e rest ih =>
    intro s done tok r h
    rw [Collectors.processCollectionItems] at h
    cases he : e.token with
    | none => rw [he] at h; exact absurd h (by simp)
    | some t =>
      rw [he] at h
      rw [ih _ _ _ _ h, Collectors.collectReports, List.getLastD_cons]

theorem processThumbs_done (iid : Int) :
    ∀ (cs : List Collector) (s : Store) (done : Bool) (tok : String),
      (Items.processThumbs s iid cs done tok).2.1
        = ((Items.thumbReports s iid cs).any id || done) := by
  intro cs
  induction cs with
  | nil => intro s done tok; simp [Items.processThumbs, Items.thumbReports]
  | cons c rest ih =>
    intro s done tok
    rw [Items.processThumbs, Items.thumbReports]
    rw [ih]
    cases (Items.add_collector_for_item s iid c).2 <;> simp

theorem insertCollectsN_of_mem (fan : Int) (item : Item) :
    ∀ (n : Nat) (s : Store),
      (fan, item.album_id.getD item.item_id) ∈ s.collects →
      (insertCollectsN s fan item n).2 = List.replicate n true ∧
      (insertCollectsN s fan item n).1.collects = s.collects := by
  intro n
  induction n with
  | zero => intro s _; exact ⟨rfl, rfl⟩
  | succ m ih =>
    intro s h
    have hstep : Collectors.add_item_for_collector s fan item
        = (Collectors.add_item_row s (Collectors.collapsedRow item), true) := by
      unfold Collectors.add_item_for_collector
      rw [if_pos]
      rw [add_item_row_collects]
      exact h
    have hmem : (fan, item.album_id.getD item.item_id)
        ∈ (Collectors.add_item_row s (Collectors.collapsedRow item)).collects := by
      rw [add_item_row_collects]; exact h
    rw [insertCollectsN, hstep]
    obtain ⟨h1, h2⟩ := ih _ hmem
    refine ⟨?_, ?_⟩
    · simp [h1, List.replicate_succ]
    · simpa [add_item_row_collects] using h2

theorem insertCollectedByN_of_mem (iid : Int) (c : Collector) :
    ∀ (n : Nat) (s : Store),
      (iid, c.fan_id) ∈ s.collected_by →
      (insertCollectedByN s iid c n).2 = List.replicate n true ∧
      (insertCollectedByN s iid c n).1.collected_by = s.collected_by := by
  intro n
  induction n with
  | zero => intro s _; exact ⟨rfl, rfl⟩
  | succ m ih =>
    intro s h
    have hstep : Items.add_collector_for_item s iid c
        = (Collectors.add_collector s ⟨c.fan_id, c.username, c.name, c.token⟩, true) := by
      unfold Items.add_collector_for_item
      rw [if_pos]
      rw [add_collector_collected_by]
      exact h
    have hmem : (iid, c.fan_id)
        ∈ (Collectors.add_collector s ⟨c.fan_id, c.username, c.name, c.token⟩).collected_by := by
      rw [add_collector_collected_by]; exact h
    rw [insertCollectedByN, hstep]
    obtain ⟨h1, h2⟩ := ih _ hmem
    refine ⟨?_, ?_⟩
    · simp [h1, List.replicate_succ]
    · simpa [add_collector_collected_by] using h2

theorem find?_targets_update (l : List TargetRow) (fan : Int)
    (g : TargetRow → TargetRow) (hg : ∀ x, (g x).fan_id = x.fan_id) :
    (l.map (fun x => if x.fan_id == fan then g x else x)).find?
        (fun x => x.fan_id == fan)
      = (l.find? (fun x => x.fan_id == fan)).map g := by
  induction l with
  | nil => rfl
  | cons a l ih =>
    by_cases h : (a.fan_id == fan) = true
    · have hga : ((g a).fan_id == fan) = true := by rw [hg]; exact h
      rw [List.map_cons,
        if_pos h,
        List.find?_cons_of_pos (p := fun x : TargetRow => x.fan_id == fan) _ hga,
        List.find?_cons_of_pos (p := fun x : TargetRow => x.fan_id == fan) _ h]
      rfl
    · rw [List.map_cons, if_neg h,
        List.find?_cons_of_neg (p := fun x : TargetRow => x.fan_id == fan) _ h,
        List.find?_cons_of_neg (p := fun x : TargetRow => x.fan_id == fan) _ h, ih]

theorem insert_target_find_some (s : Store) (fan stage cl ct eta : Int)
    (t : TargetRow) (h : s.targets.find? (fun x => x.fan_id == fan) = some t) :
    (ProgressManager.insert_target s fan stage cl ct eta).targets.find?
        (fun x => x.fan_id == fan)
      = some ⟨t.fan_id, stage, cl, max ct t.count_total, eta⟩ := by
  unfold ProgressManager.insert_target
  have hp : (t.fan_id == fan) = true :=
    List.find?_some (p := fun x : TargetRow => x.fan_id == fan) h
  have hany : s.targets.any (fun x => x.fan_id == fan) = true :=
    List.any_eq_true.mpr ⟨t, List.mem_of_find?_eq_some h, hp⟩
  rw [if_pos hany]
  show (s.targets.map _).find? _ = _
  rw [find?_targets_update s.targets fan
    (fun x => ⟨x.fan_id, stage, cl, max ct x.count_total, eta⟩) (fun _ => rfl), h]
  rfl

theorem insert_target_find_none (s : Store) (fan stage cl ct eta : Int)
    (h : s.targets.find? (fun x => x.fan_id == fan) = none) :
    (ProgressManager.insert_target s fan stage cl ct eta).targets.find?
        (fun x => x.fan_id == fan)
      = some ⟨fan, stage, cl, ct, eta⟩ := by
  unfold ProgressManager.insert_target
  have hnone : ∀ x ∈ s.targets, ¬(x.fan_id == fan) = true := List.find?_eq_none.mp h
  rw [if_neg]
  · show (s.targets ++ _).find? _ = _
    rw [List.find?_append, h]
    simp
  · intro hb
    obtain ⟨x, hx, hpx⟩ := List.any_eq_true.mp hb
    exact hnone x hx hpx

theorem insert_target_itemQueue (s : Store) (fan stage cl ct eta : Int) :
    (ProgressManager.insert_target s fan stage cl ct eta).itemQueue
      = s.itemQueue := by
  unfold ProgressManager.insert_target
  split <;> rfl

theorem insert_target_collectionQueue (s : Store) (fan stage cl ct eta : Int) :
    (ProgressManager.insert_target s fan stage cl ct eta).collectionQueue
      = s.collectionQueue := by
  unfold ProgressManager.insert_target
  split <;> rfl

theorem enqueue_item_targets (s : Store) (i : Int) :
    (ProgressManager.insert_to_collected_by_queue s i).targets = s.targets := by
  unfold ProgressManager.insert_to_collected_by_queue
  split <;> rfl

theorem enqueue_coll_targets (s : Store) (f : Int) :
    (ProgressManager.insert_to_collection_queue s f).targets = s.targets := by
  unfold ProgressManager.insert_to_collection_queue
  split <;> rfl

theorem foldl_enqueue_item_targets :
    ∀ (L : List Int) (s : Store),
      (L.foldl ProgressManager.insert_to_collected_by_queue s).targets
        = s.targets := by
  intro L
  induction L with
  | nil => intro s; rfl
  | cons a L ih => intro s; rw [List.foldl_cons, ih, enqueue_item_targets]

theorem foldl_enqueue_coll_targets :
    ∀ (L : List Int) (s : Store),
      (L.foldl ProgressManager.insert_to_collection_queue s).targets
        = s.targets := by
  intro L
  induction L with
  | nil => intro s; rfl
  | cons a L ih => intro s; rw [List.foldl_cons, ih, enqueue_coll_targets]

theorem enqueue_item_mem_self (s : Store) (i : Int) :
    i ∈ (ProgressManager.insert_to_collected_by_queue s i).itemQueue := by
  unfold ProgressManager.insert_to_collected_by_queue
  split
  · next h => simpa using h
  · simp

theorem enqueue_item_mem_mono (s : Store) (a i : Int)
    (h : i ∈ s.itemQueue) :
    i ∈ (ProgressManager.insert_to_collected_by_queue s a).itemQueue := by
  unfold ProgressManager.insert_to_collected_by_queue
  split
  · exact h
  · simp [h]

theorem foldl_enqueue_item_mem :
    ∀ (L : List Int) (s : Store) (i : Int),
      i ∈ L ∨ i ∈ s.itemQueue →
      i ∈ (L.foldl ProgressManager.insert_to_collected_by_queue s).itemQueue := by
  intro L
  induction L with
  | nil =>
    intro s i h
    cases h with
    | inl h => cases h
    | inr h => exact h
  | cons a L ih =>
    intro s i h
    rw [List.foldl_cons]
    rcases h with h | h
    · rcases List.mem_cons.mp h with rfl | h
      · exact ih _ i (Or.inr (enqueue_item_mem_self s i))
      · exact ih _ i (Or.inl h)
    · exact ih _ i (Or.inr (enqueue_item_mem_mono s a i h))

theorem enqueue_coll_mem_self (s : Store) (f : Int) :
    f ∈ (ProgressManager.insert_to_collection_queue s f).collectionQueue := by
  unfold ProgressManager.insert_to_collection_queue
  split
  · next h => simpa using h
  · simp

theorem enqueue_coll_mem_mono (s : Store) (a f : Int)
    (h : f ∈ s.collectionQueue) :
    f ∈ (ProgressManager.insert_to_collection_queue s a).collectionQueue := by
  unfold ProgressManager.insert_to_collection_queue
  split
  · exact h
  · simp [h]

theorem foldl_enqueue_coll_mem :
    ∀ (L : List Int) (s : Store) (f : Int),
      f ∈ L ∨ f ∈ s.collectionQueue →
      f ∈ (L.foldl ProgressManager.insert_to_collection_queue s).collectionQueue := by
  intro L
  induction L with
  | nil =>
    intro s f h
    cases h with
    | inl h => cases h
    | inr h => exact h
  | cons a L ih =>
    intro s f h
    rw [List.foldl_cons]
    rcases h with h | h
    · rcases List.mem_cons.mp h with rfl | h
      · exact ih _ f (Or.inr (enqueue_coll_mem_self s f))
      · exact ih _ f (Or.inl h)
    · exact ih _ f (Or.inr (enqueue_coll_mem_mono s a f h))

theorem delete_target_find_none (s : Store) (fan : Int) :
    (ProgressManager.delete_target s fan).targets.find?
        (fun x => x.fan_id == fan) = none := by
  unfold ProgressManager.delete_target
  apply List.find?_eq_none.mpr
  intro x hx
  have := (List.mem_filter.mp hx).2
  simpa using this

theorem isEmpty_false_of_ne_nil {α : Type} {l : List α} (h : l ≠ []) :
    l.isEmpty = false := by
  cases l with
  | nil => exact absurd rfl h
  | cons a l => rfl

theorem handle_stage_1_some (s : Store) (stale staleC : Int → Bool)
    (fan oc : Int)
    (hR : ProgressManager.get_stage_1_requirements s stale fan ≠ []) :
    ProgressManager.handle_stage_1 s stale staleC fan (some oc)
      = ProgressManager.insert_target s fan 1
          ((ProgressManager.get_stage_1_requirements s stale fan).length : Int)
          oc
          (((ProgressManager.get_stage_1_requirements s stale fan).length : Int)
            * ProgressManager.STAGE_1_PER_ITEM) := by
  simp [ProgressManager.handle_stage_1, isEmpty_false_of_ne_nil hR]

theorem handle_stage_1_none (s : Store) (stale staleC : Int → Bool) (fan : Int)
    (hR : ProgressManager.get_stage_1_requirements s stale fan ≠ []) :
    ProgressManager.handle_stage_1 s stale staleC fan none
      = (ProgressManager.get_stage_1_requirements s stale fan).foldl
          ProgressManager.insert_to_collected_by_queue
          (ProgressManager.insert_target s fan 1
            ((ProgressManager.get_stage_1_requirements s stale fan).length : Int)
            ((ProgressManager.get_stage_1_requirements s stale fan).length : Int)
            (((ProgressManager.get_stage_1_requirements s stale fan).length : Int)
              * ProgressManager.STAGE_1_PER_ITEM)) := by
  simp [ProgressManager.handle_stage_1, isEmpty_false_of_ne_nil hR]

theorem handle_stage_2_some (s : Store) (staleC : Int → Bool) (fan oc : Int)
    (hR : ProgressManager.get_stage_2_requirements s staleC fan ≠ []) :
    ProgressManager.handle_stage_2 s staleC fan (some oc)
      = ProgressManager.insert_target s fan 2
          ((ProgressManager.get_stage_2_requirements s staleC fan).length : Int)
          oc
          (((ProgressManager.get_stage_2_requirements s staleC fan).length : Int)
            * ProgressManager.STAGE_2_PER_ITEM) := by
  simp [ProgressManager.handle_stage_2, isEmpty_false_of_ne_nil hR]

theorem handle_stage_2_none (s : Store) (staleC : Int → Bool) (fan : Int)
    (hR : ProgressManager.get_stage_2_requirements s staleC fan ≠ []) :
    ProgressManager.handle_stage_2 s staleC fan none
      = (ProgressManager.get_stage_2_requirements s staleC fan).foldl
          ProgressManager.insert_to_collection_queue
          (ProgressManager.insert_target s fan 2
            ((ProgressManager.get_stage_2_requirements s staleC fan).length : Int)
            ((ProgressManager.get_stage_2_requirements s staleC fan).length : Int)
            (((ProgressManager.get_stage_2_requirements s staleC fan).length : Int)
              * ProgressManager.STAGE_2_PER_ITEM)) := by
  simp [ProgressManager.handle_stage_2, isEmpty_false_of_ne_nil hR]

theorem handle_stage_1_nil (s : Store) (stale staleC : Int → Bool) (fan : Int)
    (oc : Option Int)
    (hR : ProgressManager.get_stage_1_requirements s stale fan = []) :
    ProgressManager.handle_stage_1 s stale staleC fan oc
      = ProgressManager.handle_stage_2 s staleC fan none := by
  simp [ProgressManager.handle_stage_1, hR]

theorem handle_stage_2_nil (s : Store) (staleC : Int → Bool) (fan : Int)
    (oc : Option Int)
    (hR : ProgressManager.get_stage_2_requirements s staleC fan = []) :
    ProgressManager.handle_stage_2 s staleC fan oc
      = ProgressManager.delete_target s fan := by
  simp [ProgressManager.handle_stage_2, hR]

theorem update_target_stage1 (s : Store) (stale staleC : Int → Bool)
    (fan : Int) (t : TargetRow)
    (h : s.targets.find? (fun x => x.fan_id == fan) = some t)
    (hst : t.stage = 1) :
    ProgressManager.update_target s stale staleC fan
      = ProgressManager.handle_stage_1 s stale staleC fan
          (some t.count_total) := by
  have hget : ProgressManager.get_target s fan = t := by
    unfold ProgressManager.get_target
    rw [h]
    rfl
  unfold ProgressManager.update_target
  rw [hget]
  simp [hst]

theorem update_target_stage2 (s : Store) (stale staleC : Int → Bool)
    (fan : Int) (t : TargetRow)
    (h : s.targets.find? (fun x => x.fan_id == fan) = some t)
    (hst : t.stage = 2) :
    ProgressManager.update_target s stale staleC fan
      = ProgressManager.handle_stage_2 s staleC fan
          (some t.count_total) := by
  have hget : ProgressManager.get_target s fan = t := by
    unfold ProgressManager.get_target
    rw [h]
    rfl
  unfold ProgressManager.update_target
  rw [hget]
  simp [hst]

/-! Claim theorems. -/

/-- C1, counterexample to the claim as stated: the collection worker
processes the page [item 20, item 10] against a store that already holds
the edge (1, 20).  The first insert reports "already present" and the
second reports "newly inserted", so the claimed iff (done iff some insert
in the page reported already present) demands done = true and a stop; the
code computes done = false (only the last report counts) and continues
paginating with the token of item 10. -/
theorem c1_counterexample :
    Collectors.collectReports c1_store 1 [c1_page0, c1_page1] = [true, false] ∧
    (Collectors.processCollectionItems c1_store 1 [c1_page0, c1_page1]
        false "t0").map (fun r => r.2.1) = some false ∧
    (Collectors.get_next_page c1_store 1 [c1_page0, c1_page1] true
        "t0").map (fun r => r.2) = some (some "y") := by
  refine ⟨rfl, rfl, rfl⟩

/-- C1 as amended: the done flag the collection worker records for a page
is the report of the LAST insert of the page (false when the page is
empty), while the done flag the item worker records is the OR over all
reports of the page, i.e. done iff SOME insert reported already present.
A page in which every edge is a duplicate therefore stops both workers,
and a page in which every edge is new continues both; but a mixed page
stops the item worker always, and stops the collection worker exactly
when its last edge is a duplicate. -/
theorem c1_done_signal :
    (∀ (s : Store) (fan : Int) (entries : List Item) (done : Bool)
       (tok : String) (r : Store × Bool × String),
       Collectors.processCollectionItems s fan entries done tok = some r →
       r.2.1 = (Collectors.collectReports s fan entries).getLastD done)
  ∧ (∀ (s : Store) (item_id : Int) (cs : List Collector) (done : Bool)
       (tok : String),
       (Items.processThumbs s item_id cs done tok).2.1
         = ((Items.thumbReports s item_id cs).any id || done)) :=
  ⟨fun s fan entries done tok r h =>
      processCollectionItems_done fan entries s done tok r h,
   fun s iid cs done tok => processThumbs_done iid cs s done tok⟩

/-- C1 witness: the amended characterization applied to the one-entry
duplicate page of c1_store and to a one-entry duplicate page on the item
side. -/
theorem c1_done_signal_witness :
    c1_result.2.1 = (Collectors.collectReports c1_store 1 [c1_page0]).getLastD false ∧
    (Items.processThumbs c1_istore 20 [mkCollector 5 (some "a")] false "t").2.1
      = ((Items.thumbReports c1_istore 20 [mkCollector 5 (some "a")]).any id || false) :=
  ⟨c1_done_signal.1 c1_store 1 [c1_page0] false "t0" c1_result rfl,
   c1_done_signal.2 c1_istore 20 [mkCollector 5 (some "a")] false "t"⟩

/-- C2: when a crawl attempt ends in RateLimit, the collection worker only
rolls back, deleting every collects edge of the collector: the collector
rows (hence last_updated) and the collection queue are untouched, and
afterwards inserting any item for that fan reports "newly inserted", so a
later successful crawl re-inserts the edges as new and no spurious done
signal can arise.  The item worker behaves symmetrically on collected_by
edges. -/
theorem c2_rate_limit_rollback :
    (∀ (s : Store) (name : String) (now f : Int),
       Collectors.get_fan_id_for_username s name = some f →
       (∀ e ∈ (Collectors.collection_worker_step s now name .rateLimit).collects, e.1 ≠ f) ∧
       (Collectors.collection_worker_step s now name .rateLimit).collectors = s.collectors ∧
       (Collectors.collection_worker_step s now name .rateLimit).collectionQueue = s.collectionQueue ∧
       (∀ it : Item,
         (Collectors.add_item_for_collector
           (Collectors.collection_worker_step s now name .rateLimit) f it).2 = false))
  ∧ (∀ (s : Store) (now iid : Int),
       (∀ e ∈ (Items.item_worker_step s now iid .rateLimit).collected_by, e.1 ≠ iid) ∧
       (Items.item_worker_step s now iid .rateLimit).items = s.items ∧
       (Items.item_worker_step s now iid .rateLimit).itemQueue = s.itemQueue ∧
       (∀ c : Collector,
         (Items.add_collector_for_item
           (Items.item_worker_step s now iid .rateLimit) iid c).2 = false)) := by
  constructor
  · intro s name now f h
    have hstep : Collectors.collection_worker_step s now name .rateLimit
        = { s with collects := s.collects.filter (fun e => !(e.1 == f)) } := by
      unfold Collectors.collection_worker_step Collectors.remove_collects
      rw [h]
    have hedges : ∀ e ∈ (Collectors.collection_worker_step s now name .rateLimit).collects,
        e.1 ≠ f := by
      rw [hstep]
      intro e he
      have := (List.mem_filter.mp he).2
      simpa using this
    refine ⟨hedges, by rw [hstep], by rw [hstep], ?_⟩
    intro it
    exact add_item_for_collector_report _ f it hedges
  · intro s now iid
    have hedges : ∀ e ∈ (Items.item_worker_step s now iid .rateLimit).collected_by,
        e.1 ≠ iid := by
      intro e he
      have := (List.mem_filter.mp he).2
      simpa using this
    refine ⟨hedges, rfl, rfl, ?_⟩
    intro c
    exact add_collector_for_item_report _ iid c hedges

/-- C2 witness: the rollback properties at the concrete c2_store, where
bob (fan 1) holds edges to items 10 and 11 and the queue holds fans 1 and
2. -/
theorem c2_rate_limit_rollback_witness :
    ((∀ e ∈ (Collectors.collection_worker_step c2_store 99 "bob" .rateLimit).collects, e.1 ≠ 1) ∧
     (Collectors.collection_worker_step c2_store 99 "bob" .rateLimit).collectors = c2_store.collectors ∧
     (Collectors.collection_worker_step c2_store 99 "bob" .rateLimit).collectionQueue = c2_store.collectionQueue ∧
     (∀ it : Item,
       (Collectors.add_item_for_collector
         (Collectors.collection_worker_step c2_store 99 "bob" .rateLimit) 1 it).2 = false)) ∧
    ((∀ e ∈ (Items.item_worker_step c1_istore 99 20 .rateLimit).collected_by, e.1 ≠ 20) ∧
     (Items.item_worker_step c1_istore 99 20 .rateLimit).items = c1_istore.items ∧
     (Items.item_worker_step c1_istore 99 20 .rateLimit).itemQueue = c1_istore.itemQueue ∧
     (∀ c : Collector,
       (Items.add_collector_for_item
         (Items.item_worker_step c1_istore 99 20 .rateLimit) 20 c).2 = false)) :=
  ⟨c2_rate_limit_rollback.1 c2_store "bob" 99 1 rfl,
   c2_rate_limit_rollback.2 c1_istore 99 20⟩

/-- C5, counterexample to the claim as stated: on the empty store the very
first insert of the edge (1, 10) newly inserts it (the edge was absent and
is present with multiplicity 1 afterwards), yet add_item_for_collector
returns false; the claim says the insert returns true iff the edge was
newly inserted. -/
theorem c5_counterexample :
    ((1 : Int), (10 : Int)) ∉ emptyStore.collects ∧
    (Collectors.add_item_for_collector emptyStore 1 (mkItem 10 (some "x"))).1.collects = [(1, 10)] ∧
    (Collectors.add_item_for_collector emptyStore 1 (mkItem 10 (some "x"))).2 = false := by
  refine ⟨by decide, rfl, rfl⟩

/-- C5 as amended: inserting the same edge n ≥ 1 times starting from a
store without the edge leaves exactly one copy of the edge, and the
reports are false followed by n-1 times true: the insert returns TRUE iff
the edge was ALREADY PRESENT (the .is_none() of the RETURNING cursor), so
exactly the first call reports the new insertion, by returning false.
The collected_by insert behaves identically. -/
theorem c5_edge_insert_idempotent :
    (∀ (s : Store) (fan : Int) (item : Item) (n : Nat),
       1 ≤ n → (fan, item.album_id.getD item.item_id) ∉ s.collects →
       (insertCollectsN s fan item n).1.collects.count
           (fan, item.album_id.getD item.item_id) = 1 ∧
       (insertCollectsN s fan item n).2 = false :: List.replicate (n - 1) true)
  ∧ (∀ (s : Store) (iid : Int) (c : Collector) (n : Nat),
       1 ≤ n → (iid, c.fan_id) ∉ s.collected_by →
       (insertCollectedByN s iid c n).1.collected_by.count (iid, c.fan_id) = 1 ∧
       (insertCollectedByN s iid c n).2 = false :: List.replicate (n - 1) true) := by
  constructor
  · intro s fan item n hn hmem
    obtain ⟨m, rfl⟩ : ∃ m, n = m + 1 := ⟨n - 1, by omega⟩
    have hstep : Collectors.add_item_for_collector s fan item
        = ({ Collectors.add_item_row s (Collectors.collapsedRow item) with
              collects := (Collectors.add_item_row s (Collectors.collapsedRow item)).collects
                ++ [(fan, item.album_id.getD item.item_id)] }, false) := by
      unfold Collectors.add_item_for_collector
      rw [if_neg]
      rw [add_item_row_collects]
      exact hmem
    have hmem2 : (fan, item.album_id.getD item.item_id)
        ∈ ({ Collectors.add_item_row s (Collectors.collapsedRow item) with
              collects := (Collectors.add_item_row s (Collectors.collapsedRow item)).collects
                ++ [(fan, item.album_id.getD item.item_id)] } : Store).collects := by
      simp
    rw [insertCollectsN, hstep]
    obtain ⟨h1, h2⟩ := insertCollectsN_of_mem fan item m _ hmem2
    constructor
    · rw [h2]
      simp [add_item_row_collects, List.count_eq_zero.mpr hmem]
    · simp [h1]
  · intro s iid c n hn hmem
    obtain ⟨m, rfl⟩ : ∃ m, n = m + 1 := ⟨n - 1, by omega⟩
    have hstep : Items.add_collector_for_item s iid c
        = ({ Collectors.add_collector s ⟨c.fan_id, c.username, c.name, c.token⟩ with
              collected_by := (Collectors.add_collector s
                  ⟨c.fan_id, c.username, c.name, c.token⟩).collected_by
                ++ [(iid, c.fan_id)] }, false) := by
      unfold Items.add_collector_for_item
      rw [if_neg]
      rw [add_collector_collected_by]
      exact hmem
    have hmem2 : (iid, c.fan_id)
        ∈ ({ Collectors.add_collector s ⟨c.fan_id, c.username, c.name, c.token⟩ with
              collected_by := (Collectors.add_collector s
                  ⟨c.fan_id, c.username, c.name, c.token⟩).collected_by
                ++ [(iid, c.fan_id)] } : Store).collected_by := by
      simp
    rw [insertCollectedByN, hstep]
    obtain ⟨h1, h2⟩ := insertCollectedByN_of_mem iid c m _ hmem2
    constructor
    · rw [h2]
      simp [add_collector_collected_by, List.count_eq_zero.mpr hmem]
    · simp [h1]

/-- C5 witness: two inserts of the same edge on the empty store, on both
sides. -/
theorem c5_edge_insert_idempotent_witness :
    ((insertCollectsN emptyStore 1 (mkItem 10 (some "x")) 2).1.collects.count (1, 10) = 1 ∧
     (insertCollectsN emptyStore 1 (mkItem 10 (some "x")) 2).2 = false :: List.replicate 1 true) ∧
    ((insertCollectedByN emptyStore 20 (mkCollector 5 none) 2).1.collected_by.count (20, 5) = 1 ∧
     (insertCollectedByN emptyStore 20 (mkCollector 5 none) 2).2 = false :: List.replicate 1 true) :=
  ⟨c5_edge_insert_idempotent.1 emptyStore 1 (mkItem 10 (some "x")) 2
      (by decide) (by decide),
   c5_edge_insert_idempotent.2 emptyStore 20 (mkCollector 5 none) 2
      (by decide) (by decide)⟩

/-- C6, divergence of the code from the claim at the failing input: a
collector row (and an item row) whose last_updated is the epoch second
1760227200, queried at now = 1760227200.  The claim demands true (the row
exists and now - last_updated = 0 < 30 days, as collectorFresh_spec
computes); the code evaluates unixepoch(last_updated, +30 days), which
interprets 1760227200 as an out-of-range Julian day number, yields NULL
and makes collector_present_and_recent return false. -/
theorem c6_freshness_divergence :
    Collectors.collector_present_and_recent c6_store 1760227200 "alice" = false ∧
    Collectors.collectorFresh_spec c6_store 1760227200 "alice" = true ∧
    Items.item_present_and_recent c6_store 1760227200 10 = false ∧
    Items.itemFresh_spec c6_store 1760227200 10 = true := by
  refine ⟨rfl, rfl, rfl, rfl⟩

/-- C8: upserting a collector (and an item) leaves every pre-existing row
in place with its last_updated, username and remaining fields unchanged,
and rewrites its token exactly when the row is the conflicting one and its
stored token is null; in particular a non-null token is never overwritten
and last_updated is never regressed. -/
theorem c8_token_fill_monotone :
    (∀ (s : Store) (c : Collector),
       (Collectors.add_collector s c).collectors.take s.collectors.length
         = s.collectors.map (fun r =>
             { r with token :=
                 if r.fan_id = c.fan_id ∧ r.token = none then c.token
                 else r.token }))
  ∧ (∀ (s : Store) (row : ItemRow),
       (Collectors.add_item_row s row).items.take s.items.length
         = s.items.map (fun r =>
             { r with token :=
                 if r.item_id = row.item_id ∧ r.token = none then row.token
                 else r.token })) := by
  constructor
  · intro s c
    unfold Collectors.add_collector
    by_cases hany : s.collectors.any (fun r => r.fan_id == c.fan_id)
    · rw [if_pos hany]
      show (s.collectors.map _).take s.collectors.length = _
      rw [List.take_of_length_le (by simp)]
      apply List.map_congr_left
      intro r _
      by_cases hf : r.fan_id = c.fan_id
      · cases ht : r.token with
        | none => simp [hf, ht]
        | some t => simp [hf, ht]
      · simp [hf]
    · rw [if_neg hany]
      show (s.collectors ++ _).take s.collectors.length = _
      rw [List.take_left]
      have hnone : ∀ r ∈ s.collectors, r.fan_id ≠ c.fan_id := by
        intro r hr hEq
        exact hany (List.any_eq_true.mpr ⟨r, hr, by simp [hEq]⟩)
      conv_lhs => rw [← List.map_id s.collectors]
      apply List.map_congr_left
      intro r hr
      simp [hnone r hr]
  · intro s row
    unfold Collectors.add_item_row
    by_cases hany : s.items.any (fun r => r.item_id == row.item_id)
    · rw [if_pos hany]
      show (s.items.map _).take s.items.length = _
      rw [List.take_of_length_le (by simp)]
      apply List.map_congr_left
      intro r _
      by_cases hf : r.item_id = row.item_id
      · cases ht : r.token with
        | none => simp [hf, ht]
        | some t => simp [hf, ht]
      · simp [hf]
    · rw [if_neg hany]
      show (s.items ++ _).take s.items.length = _
      rw [List.take_left]
      have hnone : ∀ r ∈ s.items, r.item_id ≠ row.item_id := by
        intro r hr hEq
        exact hany (List.any_eq_true.mpr ⟨r, hr, by simp [hEq]⟩)
      conv_lhs => rw [← List.map_id s.items]
      apply List.map_congr_left
      intro r hr
      simp [hnone r hr]

/-- C10: processing one page of the paginated collection endpoint succeeds
iff every decoded item carries a non-null token; a single null token makes
the closure hit the Option unwrap and abort (the none outcome) instead of
surfacing an error value. -/
theorem c10_token_unwrap_totality :
    ∀ (s : Store) (fan : Int) (entries : List Item) (done : Bool)
      (tok : String),
      (Collectors.processCollectionItems s fan entries done tok).isSome
        = entries.all (fun e => e.token.isSome) := by
  intro s fan entries done tok
  induction entries generalizing s done tok with
  | nil => rfl
  | cons e rest ih =>
    rw [Collectors.processCollectionItems]
    cases he : e.token with
    | none => simp [he]
    | some t => simp [he, ih]

/-- C4, counterexample to the claim as stated: c4_store persists a stage-1
target with count_total = 1 while the recomputed requirement list has two
items, so the claim demands count_total = max(1, 2) = 2 after the tick;
the code passes the old total to the upsert and leaves count_total = 1. -/
theorem c4_counterexample :
    ProgressManager.get_target c4_store 1 = ⟨1, 1, 1, 1, 2⟩ ∧
    (ProgressManager.get_stage_1_requirements c4_store fixStale 1).length = 2 ∧
    (ProgressManager.update_target c4_store fixStale fixStale 1).targets
      = [⟨1, 1, 2, 1, 4⟩] :=
  ⟨rfl, rfl, rfl⟩

/-- C4 as amended: one background tick on a persisted stage-1 target with a
non-empty recomputed requirement list R leaves stage = 1,
count_left = |R|, eta = |R| * 2 and count_total equal to the OLD
count_total (the tick hands the old total to the upsert, whose max keeps
it; count_total thus never decreases within a stage, but contrary to the
claim it also never grows during update ticks), and enqueues nothing; the
analogous rule with eta = |R| * 3 holds for stage 2. -/
theorem c4_update_tick :
    ∀ (s : Store) (stale staleC : Int → Bool) (fan : Int) (t : TargetRow),
      s.targets.find? (fun x => x.fan_id == fan) = some t →
      ((t.stage = 1 →
        ProgressManager.get_stage_1_requirements s stale fan ≠ [] →
        (ProgressManager.update_target s stale staleC fan).targets.find?
            (fun x => x.fan_id == fan)
          = some ⟨fan, 1,
              ((ProgressManager.get_stage_1_requirements s stale fan).length : Int),
              t.count_total,
              ((ProgressManager.get_stage_1_requirements s stale fan).length : Int) * 2⟩ ∧
        (ProgressManager.update_target s stale staleC fan).itemQueue = s.itemQueue ∧
        (ProgressManager.update_target s stale staleC fan).collectionQueue
          = s.collectionQueue) ∧
       (t.stage = 2 →
        ProgressManager.get_stage_2_requirements s staleC fan ≠ [] →
        (ProgressManager.update_target s stale staleC fan).targets.find?
            (fun x => x.fan_id == fan)
          = some ⟨fan, 2,
              ((ProgressManager.get_stage_2_requirements s staleC fan).length : Int),
              t.count_total,
              ((ProgressManager.get_stage_2_requirements s staleC fan).length : Int) * 3⟩ ∧
        (ProgressManager.update_target s stale staleC fan).itemQueue = s.itemQueue ∧
        (ProgressManager.update_target s stale staleC fan).collectionQueue
          = s.collectionQueue)) := by
  intro s stale staleC fan t h
  have hfan : t.fan_id = fan := by
    have := List.find?_some (p := fun x : TargetRow => x.fan_id == fan) h
    simpa using this
  constructor
  · intro hst hR
    have hupd := update_target_stage1 s stale staleC fan t h hst
    have h1 := handle_stage_1_some s stale staleC fan t.count_total hR
    refine ⟨?_, ?_, ?_⟩
    · rw [hupd, h1, insert_target_find_some _ _ _ _ _ _ t h, hfan, max_self]
      rfl
    · rw [hupd, h1, insert_target_itemQueue]
    · rw [hupd, h1, insert_target_collectionQueue]
  · intro hst hR
    have hupd := update_target_stage2 s stale staleC fan t h hst
    have h1 := handle_stage_2_some s staleC fan t.count_total hR
    refine ⟨?_, ?_, ?_⟩
    · rw [hupd, h1, insert_target_find_some _ _ _ _ _ _ t h, hfan, max_self]
      rfl
    · rw [hupd, h1, insert_target_itemQueue]
    · rw [hupd, h1, insert_target_collectionQueue]

/-- C4 witness: the amended stage-1 update rule at c4_store (old
count_total 1, two required items). -/
theorem c4_update_tick_witness :
    (ProgressManager.update_target c4_store fixStale fixStale 1).targets.find?
        (fun x => x.fan_id == 1)
      = some ⟨1, 1,
          ((ProgressManager.get_stage_1_requirements c4_store fixStale 1).length : Int),
          (1 : Int),
          ((ProgressManager.get_stage_1_requirements c4_store fixStale 1).length : Int) * 2⟩ ∧
    (ProgressManager.update_target c4_store fixStale fixStale 1).itemQueue
      = c4_store.itemQueue ∧
    (ProgressManager.update_target c4_store fixStale fixStale 1).collectionQueue
      = c4_store.collectionQueue :=
  (c4_update_tick c4_store fixStale fixStale 1 ⟨1, 1, 1, 1, 2⟩ rfl).1 rfl
    (by decide)

/-- C7, counterexample to the claim as stated: c7_store already persists a
target row with count_total = 5 for fan 1, whose stage-1 requirement list
is [10]; addTarget returns count_total = 5 (the upsert max keeps the
larger stored total), not |R| = 1 as the claim demands. -/
theorem c7_counterexample :
    ProgressManager.get_stage_1_requirements c7_store fixStale 1 = [10] ∧
    (ProgressManager.add_target c7_store fixStale fixStale 1).2
      = ⟨1, 1, 1, 5, 2⟩ :=
  ⟨rfl, rfl⟩

/-- C7 as amended: when the stage-1 requirement list R is non-empty,
addTarget stores and returns a target with stage = 1, count_left = |R|,
eta = 2 * |R| and count_total = |R| when no target row existed, but
max(|R|, previous count_total) when one did; it enqueues every item of R
into the item queue.  When R is empty it falls through to stage 2 with the
same shape (eta = 3 * |R2|, collection queue), and when both requirement
lists are empty it deletes any target row and returns the synthesized
sentinel with stage = 3 and zero counts. -/
theorem c7_add_target_plan :
    ∀ (s : Store) (stale staleC : Int → Bool) (fan : Int),
      (ProgressManager.get_stage_1_requirements s stale fan ≠ [] →
        (ProgressManager.add_target s stale staleC fan).2
          = ⟨fan, 1,
              ((ProgressManager.get_stage_1_requirements s stale fan).length : Int),
              (s.targets.find? (fun x => x.fan_id == fan)).elim
                ((ProgressManager.get_stage_1_requirements s stale fan).length : Int)
                (fun t => max
                  ((ProgressManager.get_stage_1_requirements s stale fan).length : Int)
                  t.count_total),
              ((ProgressManager.get_stage_1_requirements s stale fan).length : Int) * 2⟩ ∧
        (∀ i ∈ ProgressManager.get_stage_1_requirements s stale fan,
          i ∈ (ProgressManager.add_target s stale staleC fan).1.itemQueue)) ∧
      (ProgressManager.get_stage_1_requirements s stale fan = [] →
       ProgressManager.get_stage_2_requirements s staleC fan ≠ [] →
        (ProgressManager.add_target s stale staleC fan).2
          = ⟨fan, 2,
              ((ProgressManager.get_stage_2_requirements s staleC fan).length : Int),
              (s.targets.find? (fun x => x.fan_id == fan)).elim
                ((ProgressManager.get_stage_2_requirements s staleC fan).length : Int)
                (fun t => max
                  ((ProgressManager.get_stage_2_requirements s staleC fan).length : Int)
                  t.count_total),
              ((ProgressManager.get_stage_2_requirements s staleC fan).length : Int) * 3⟩ ∧
        (∀ f2 ∈ ProgressManager.get_stage_2_requirements s staleC fan,
          f2 ∈ (ProgressManager.add_target s stale staleC fan).1.collectionQueue)) ∧
      (ProgressManager.get_stage_1_requirements s stale fan = [] →
       ProgressManager.get_stage_2_requirements s staleC fan = [] →
        (ProgressManager.add_target s stale staleC fan).2 = ⟨fan, 3, 0, 0, 0⟩ ∧
        (ProgressManager.add_target s stale staleC fan).1.targets.find?
            (fun x => x.fan_id == fan) = none) := by
  intro s stale staleC fan
  refine ⟨?_, ?_, ?_⟩
  · intro hR
    have h1 := handle_stage_1_none s stale staleC fan hR
    constructor
    · show ProgressManager.get_target
        (ProgressManager.handle_stage_1 s stale staleC fan none) fan = _
      unfold ProgressManager.get_target
      rw [h1, foldl_enqueue_item_targets]
      cases hf : s.targets.find? (fun x => x.fan_id == fan) with
      | some t =>
        have hfan : t.fan_id = fan := by
          have := List.find?_some (p := fun x : TargetRow => x.fan_id == fan) hf
          simpa using this
        rw [insert_target_find_some _ _ _ _ _ _ t hf, hfan]
        rfl
      | none =>
        rw [insert_target_find_none _ _ _ _ _ _ hf]
        rfl
    · intro i hi
      show i ∈ (ProgressManager.handle_stage_1 s stale staleC fan none).itemQueue
      rw [h1]
      exact foldl_enqueue_item_mem _ _ i (Or.inl hi)
  · intro hR1 hR2
    have h1 : ProgressManager.handle_stage_1 s stale staleC fan none
        = (ProgressManager.get_stage_2_requirements s staleC fan).foldl
            ProgressManager.insert_to_collection_queue
            (ProgressManager.insert_target s fan 2
              ((ProgressManager.get_stage_2_requirements s staleC fan).length : Int)
              ((ProgressManager.get_stage_2_requirements s staleC fan).length : Int)
              (((ProgressManager.get_stage_2_requirements s staleC fan).length : Int)
                * ProgressManager.STAGE_2_PER_ITEM)) := by
      rw [handle_stage_1_nil s stale staleC fan none hR1,
        handle_stage_2_none s staleC fan hR2]
    constructor
    · show ProgressManager.get_target
        (ProgressManager.handle_stage_1 s stale staleC fan none) fan = _
      unfold ProgressManager.get_target
      rw [h1, foldl_enqueue_coll_targets]
      cases hf : s.targets.find? (fun x => x.fan_id == fan) with
      | some t =>
        have hfan : t.fan_id = fan := by
          have := List.find?_some (p := fun x : TargetRow => x.fan_id == fan) hf
          simpa using this
        rw [insert_target_find_some _ _ _ _ _ _ t hf, hfan]
        rfl
      | none =>
        rw [insert_target_find_none _ _ _ _ _ _ hf]
        rfl
    · intro f2 hf2
      show f2 ∈ (ProgressManager.handle_stage_1 s stale staleC fan none).collectionQueue
      rw [h1]
      exact foldl_enqueue_coll_mem _ _ f2 (Or.inl hf2)
  · intro hR1 hR2
    have h1 : ProgressManager.handle_stage_1 s stale staleC fan none
        = ProgressManager.delete_target s fan := by
      rw [handle_stage_1_nil s stale staleC fan none hR1,
        handle_stage_2_nil s staleC fan none hR2]
    constructor
    · show ProgressManager.get_target
        (ProgressManager.handle_stage_1 s stale staleC fan none) fan = _
      unfold ProgressManager.get_target
      rw [h1, delete_target_find_none]
      rfl
    · show (ProgressManager.handle_stage_1 s stale staleC fan none).targets.find?
          (fun x => x.fan_id == fan) = none
      rw [h1]
      exact delete_target_find_none s fan

/-- C7 witness: the amended rule at c7_store (a pre-existing row with the
larger total 5 and one required item) and the sentinel rule at
c7_empty_store (no requirements at all). -/
theorem c7_add_target_plan_witness :
    ((ProgressManager.add_target c7_store fixStale fixStale 1).2
        = ⟨1, 1,
            ((ProgressManager.get_stage_1_requirements c7_store fixStale 1).length : Int),
            (c7_store.targets.find? (fun x => x.fan_id == 1)).elim
              ((ProgressManager.get_stage_1_requirements c7_store fixStale 1).length : Int)
              (fun t => max
                ((ProgressManager.get_stage_1_requirements c7_store fixStale 1).length : Int)
                t.count_total),
            ((ProgressManager.get_stage_1_requirements c7_store fixStale 1).length : Int) * 2⟩ ∧
      (∀ i ∈ ProgressManager.get_stage_1_requirements c7_store fixStale 1,
        i ∈ (ProgressManager.add_target c7_store fixStale fixStale 1).1.itemQueue)) ∧
    ((ProgressManager.add_target c7_empty_store fixStale fixStale 1).2
        = ⟨1, 3, 0, 0, 0⟩ ∧
      (ProgressManager.add_target c7_empty_store fixStale fixStale 1).1.targets.find?
          (fun x => x.fan_id == 1) = none) :=
  ⟨(c7_add_target_plan c7_store fixStale fixStale 1).1 (by decide),
   (c7_add_target_plan c7_empty_store fixStale fixStale 1).2.2 rfl rfl⟩

theorem sharedRowCount_self (s : Store) (fan : Int) :
    Analyze.sharedRowCount s (Analyze.targetItems s fan) fan
      = (s.collects.filter (fun e => e.1 == fan)).length := by
  unfold Analyze.sharedRowCount
  congr 1
  apply List.filter_congr
  intro e he
  by_cases h : (e.1 == fan) = true
  · have hmem : e.2 ∈ Analyze.targetItems s fan := by
      unfold Analyze.targetItems
      exact List.mem_map.mpr ⟨e, List.mem_filter.mpr ⟨he, h⟩, rfl⟩
    simp [h, hmem]
  · simp [h]

theorem fan_not_relevant (s : Store) (fan : Int)
    (hlen : (s.collects.filter (fun e => e.1 == fan)).length < 2) :
    fan ∉ Analyze.relevantFans s fan := by
  unfold Analyze.relevantFans
  intro hmem
  have hp := (List.mem_filter.mp hmem).2
  rw [decide_eq_true_iff, sharedRowCount_self] at hp
  omega

/-- C9: when the target username resolves to a fan_id but that fan has
fewer than two collects rows, the SQL keeps only users sharing more than
one item, so the fan is absent from the relevant-users map and the
HashMap indexing users[fan_id] in get_user_recommendations panics (the
mapIndexPanicked outcome) instead of producing the NotFound error. -/
theorem c9_recommender_panics_on_small_collection :
    ∀ (s : Store) (username : String) (fan : Int) (mult : Nat → ℚ),
      Collectors.get_fan_id_for_username s username = some fan →
      (s.collects.filter (fun e => e.1 == fan)).length < 2 →
      (Analyze.get_relevant_users s fan).find? (fun p => p.1 == fan) = none ∧
      Analyze.get_user_recommendations s username mult
        = .error .mapIndexPanicked := by
  intro s username fan mult h1 h2
  have hnotrel := fan_not_relevant s fan h2
  have hfind : (Analyze.get_relevant_users s fan).find? (fun p => p.1 == fan)
      = none := by
    apply List.find?_eq_none.mpr
    intro p hp hpp
    unfold Analyze.get_relevant_users at hp
    obtain ⟨f, hf, rfl⟩ := List.mem_map.mp hp
    have : f = fan := by simpa using hpp
    subst this
    exact hnotrel hf
  refine ⟨hfind, ?_⟩
  unfold Analyze.get_user_recommendations
  rw [h1]
  simp [hfind]

/-- C9 witness: the panic at c9_store, where fan 1 is known as "solo" but
collects a single item. -/
theorem c9_recommender_panics_witness :
    (Analyze.get_relevant_users c9_store 1).find? (fun p => p.1 == 1) = none ∧
    Analyze.get_user_recommendations c9_store "solo" (fun n => (n : ℚ))
      = .error .mapIndexPanicked :=
  c9_recommender_panics_on_small_collection c9_store "solo" 1
    (fun n => (n : ℚ)) rfl (by decide)

theorem loadScored_ok (s : Store) :
    ∀ (l : List (Int × ℚ)) (out : List (ItemRow × ℚ)),
      Analyze.loadScored s l = .ok out →
      out.map (fun p => p.2) = l.map (fun p => p.2) ∧
      (∀ q ∈ out, ∃ p ∈ l, q.1.item_id = p.1 ∧ q.2 = p.2) := by
  intro l
  induction l with
  | nil =>
    intro out h
    have hout : out = [] := by
      simpa [Analyze.loadScored] using h.symm
    subst hout
    exact ⟨rfl, by simp⟩
  | cons p rest ih =>
    intro out h
    obtain ⟨i, sc⟩ := p
    unfold Analyze.loadScored at h
    cases hf : s.items.find? (fun r => r.item_id == i) with
    | none => rw [hf] at h; exact absurd h (by simp)
    | some r =>
      rw [hf] at h
      cases hrec : Analyze.loadScored s rest with
      | error e => rw [hrec] at h; exact absurd h (by simp)
      | ok out' =>
        rw [hrec] at h
        have hout : out = (r, sc) :: out' := by simpa using h.symm
        subst hout
        obtain ⟨hmap, hmem⟩ := ih out' hrec
        have hri : r.item_id = i := by
          have := List.find?_some (p := fun r : ItemRow => r.item_id == i) hf
          simpa using this
        refine ⟨by simp [hmap], ?_⟩
        intro q hq
        rcases List.mem_cons.mp hq with rfl | hq
        · exact ⟨(i, sc), List.mem_cons_self .., by simpa using hri, rfl⟩
        · obtain ⟨p', hp', h1, h2⟩ := hmem q hq
          exact ⟨p', List.mem_cons_of_mem _ hp', h1, h2⟩

theorem bumpScore_inv (forbidden : List Int) (acc : List (Int × ℚ)) (i : Int)
    (w : ℚ)
    (hacc : ∀ p ∈ acc, forbidden.contains p.1 = false ∧ 0 < p.2)
    (hi : forbidden.contains i = false) (hw : 0 < w) :
    ∀ p ∈ Analyze.bumpScore acc i w,
      forbidden.contains p.1 = false ∧ 0 < p.2 := by
  unfold Analyze.bumpScore
  split
  · intro p hp
    obtain ⟨q, hq, rfl⟩ := List.mem_map.mp hp
    by_cases h : (q.1 == i) = true
    · rw [if_pos h]
      obtain ⟨h1, h2⟩ := hacc q hq
      exact ⟨h1, add_pos h2 hw⟩
    · rw [if_neg h]
      exact hacc q hq
  · intro p hp
    rcases List.mem_append.mp hp with hp | hp
    · exact hacc p hp
    · have hpe : p = (i, w) := by simpa using hp
      subst hpe
      exact ⟨hi, hw⟩

theorem foldl_bump_inv (forbidden : List Int) (w : ℚ) (hw : 0 < w) :
    ∀ (js : List Int) (acc : List (Int × ℚ)),
      (∀ j ∈ js, forbidden.contains j = false) →
      (∀ p ∈ acc, forbidden.contains p.1 = false ∧ 0 < p.2) →
      ∀ p ∈ js.foldl (fun a i => Analyze.bumpScore a i w) acc,
        forbidden.contains p.1 = false ∧ 0 < p.2 := by
  intro js
  induction js with
  | nil => intro acc _ hacc; exact hacc
  | cons j js ih =>
    intro acc hj hacc
    rw [List.foldl_cons]
    exact ih _ (fun x hx => hj x (List.mem_cons_of_mem _ hx))
      (bumpScore_inv forbidden acc j w hacc (hj j (List.mem_cons_self ..)) hw)

theorem addUserScores_inv (forbidden : List Int) (mult : Nat → ℚ)
    (user : List Int) (acc : List (Int × ℚ))
    (hacc : ∀ p ∈ acc, forbidden.contains p.1 = false ∧ 0 < p.2) :
    ∀ p ∈ Analyze.addUserScores forbidden mult acc user,
      forbidden.contains p.1 = false ∧ 0 < p.2 := by
  unfold Analyze.addUserScores
  dsimp only
  split
  · next hw =>
    apply foldl_bump_inv forbidden _ (lt_trans zero_lt_one hw)
    · intro j hj
      have := (List.mem_filter.mp hj).2
      simpa using this
    · exact hacc
  · exact hacc

theorem scoreEntries_inv (m : List (Int × List Int)) (forbidden : List Int)
    (mult : Nat → ℚ) :
    ∀ p ∈ Analyze.scoreEntries m forbidden mult,
      forbidden.contains p.1 = false ∧ 0 < p.2 := by
  suffices h : ∀ (mm : List (Int × List Int)) (acc : List (Int × ℚ)),
      (∀ p ∈ acc, forbidden.contains p.1 = false ∧ 0 < p.2) →
      ∀ p ∈ mm.foldl (fun acc q => Analyze.addUserScores forbidden mult acc q.2) acc,
        forbidden.contains p.1 = false ∧ 0 < p.2 by
    exact h m [] (by simp)
  intro mm
  induction mm with
  | nil => intro acc hacc; exact hacc
  | cons q mm ih =>
    intro acc hacc
    rw [List.foldl_cons]
    exact ih _ (addUserScores_inv forbidden mult q.2 acc hacc)

theorem relevant_users_find (s : Store) (fan : Int) (pr : Int × List Int)
    (h : (Analyze.get_relevant_users s fan).find? (fun p => p.1 == fan)
      = some pr) :
    pr.2 = Analyze.userItems s fan := by
  have hmem := List.mem_of_find?_eq_some h
  have hpred := List.find?_some (p := fun p : Int × List Int => p.1 == fan) h
  unfold Analyze.get_relevant_users at hmem
  obtain ⟨f, hf, rfl⟩ := List.mem_map.mp hmem
  have hfe : f = fan := by simpa using hpred
  rw [hfe]

/-- C3: whenever get_user_recommendations succeeds for a username that
resolves to a fan_id, the returned list has at most 50 entries, no
returned item id lies in the target fan's own item set, every attached
score is strictly positive and the scores are non-increasing down the
list; moreover the scoring loop skips a user exactly unless its weight
strictly exceeds 1, so with the weight function of similar_boost = 1 (the
identity on the overlap size) a user whose overlap with the target is at
most 1 contributes nothing. -/
theorem c3_recommender_shape :
    (∀ (s : Store) (username : String) (fan : Int) (mult : Nat → ℚ)
       (l : List (ItemRow × ℚ)),
       Collectors.get_fan_id_for_username s username = some fan →
       Analyze.get_user_recommendations s username mult = .ok l →
       l.length ≤ 50 ∧
       (∀ p ∈ l, p.1.item_id ∉ Analyze.userItems s fan ∧ 0 < p.2) ∧
       l.Pairwise (fun a b => b.2 ≤ a.2))
  ∧ (∀ (forbidden user : List Int) (acc : List (Int × ℚ)),
       Analyze.overlapCount user forbidden ≤ 1 →
       Analyze.addUserScores forbidden (fun n => (n : ℚ)) acc user = acc) := by
  constructor
  · intro s username fan mult l h1 h2
    unfold Analyze.get_user_recommendations at h2
    rw [h1] at h2
    simp only at h2
    cases hfind : (Analyze.get_relevant_users s fan).find? (fun p => p.1 == fan) with
    | none => rw [hfind] at h2; exact absurd h2 (by simp)
    | some pr =>
      rw [hfind] at h2
      simp only at h2
      have hforb := relevant_users_find s fan pr hfind
      obtain ⟨hmap, hmem⟩ := loadScored_ok s _ l h2
      have hlen : l.length ≤ 50 := by
        have h1l : l.length
            = ((List.insertionSort Analyze.byScoreDesc
                (Analyze.scoreEntries (Analyze.get_relevant_users s fan) pr.2 mult)).take
                  50).length := by
          rw [← List.length_map l (fun p => p.2), hmap, List.length_map]
        rw [h1l, List.length_take]
        exact min_le_left _ _
      refine ⟨hlen, ?_, ?_⟩
      · intro p hp
        obtain ⟨q, hq, hid, hsc⟩ := hmem p hp
        have hq1 : q ∈ List.insertionSort Analyze.byScoreDesc
            (Analyze.scoreEntries (Analyze.get_relevant_users s fan) pr.2 mult) :=
          List.take_subset _ _ hq
        have hq2 : q ∈ Analyze.scoreEntries (Analyze.get_relevant_users s fan)
            pr.2 mult := (List.mem_insertionSort _).mp hq1
        obtain ⟨hc, hpos⟩ := scoreEntries_inv _ _ _ q hq2
        constructor
        · rw [hid, ← hforb]
          simpa using hc
        · rw [hsc]
          exact hpos
      · have hsorted : List.Pairwise Analyze.byScoreDesc
            ((List.insertionSort Analyze.byScoreDesc
              (Analyze.scoreEntries (Analyze.get_relevant_users s fan) pr.2 mult)).take
                50) :=
          (List.sorted_insertionSort Analyze.byScoreDesc _).sublist
            (List.take_sublist ..)
        have hmapped : (l.map (fun p => p.2)).Pairwise (fun x y : ℚ => y ≤ x) := by
          rw [hmap]
          exact List.pairwise_map.mpr hsorted
        have := List.pairwise_map.mp hmapped
        exact this
  · intro forbidden user acc h
    unfold Analyze.addUserScores
    rw [if_neg]
    intro hcontra
    have : ((Analyze.overlapCount user forbidden : ℚ)) ≤ 1 := by
      exact_mod_cast h
    exact absurd hcontra (not_lt.mpr this)

/-- C3 witness: the shape properties at the concrete c3_store (scenario S4
of the spec, similar_boost 2), and the skip rule for a user overlapping in
a single item at similar_boost 1. -/
theorem c3_recommender_shape_witness :
    (c3_out.length ≤ 50 ∧
     (∀ p ∈ c3_out, p.1.item_id ∉ Analyze.userItems c3_store 1 ∧ 0 < p.2) ∧
     c3_out.Pairwise (fun a b => b.2 ≤ a.2)) ∧
    Analyze.addUserScores [1] (fun n => (n : ℚ)) [] [1, 2] = [] :=
  ⟨c3_recommender_shape.1 c3_store "u" 1 c3_mult c3_out rfl (by rfl),
   c3_recommender_shape.2 [1] [1, 2] [] (by decide)⟩

end BC
